import Mathlib

/-!
Verification of the ConvoTalk connection registry and broadcast dispatcher
(`backend/server.py`): the `ConnectionManager` class and the websocket
receive loop of `websocket_endpoint`.

Python dictionaries are modelled as association lists with CPython's
insertion-order semantics: assigning to an existing key updates the entry
in place, assigning a fresh key appends, deletion removes the entry.
Connection identifiers (`uuid.uuid4()` strings) are modelled as opaque
natural numbers supplied by the caller; transport handles are records
carrying an identity and a closed flag.  Transport writes
(`websocket.send_text`) succeed on an open handle and fail on a closed
one; performed writes are returned explicitly so that delivery can be
reasoned about.
-/

namespace ConvoTalk

/-! ### Association-list model of a Python dict -/

/-- Dict lookup `d[k]` / `d.get(k)`: the value at the first matching key. -/
def lookupKey {K V : Type} [DecidableEq K] : List (K × V) → K → Option V
  | [], _ => none
  | (k1, v1) :: rest, k => if k1 = k then some v1 else lookupKey rest k

/-- Dict membership test `k in d`. -/
def containsKey {K V : Type} [DecidableEq K] (l : List (K × V)) (k : K) : Bool :=
  (lookupKey l k).isSome

/-- Dict assignment `d[k] = v`: update in place if the key is present,
append otherwise (CPython insertion-order semantics). -/
def setItem {K V : Type} [DecidableEq K] : List (K × V) → K → V → List (K × V)
  | [], k, v => [(k, v)]
  | (k1, v1) :: rest, k, v =>
    if k1 = k then (k, v) :: rest else (k1, v1) :: setItem rest k v

/-- Dict deletion `del d[k]`: remove the entry with the given key. -/
def delItem {K V : Type} [DecidableEq K] : List (K × V) → K → List (K × V)
  | [], _ => []
  | (k1, v1) :: rest, k =>
    if k1 = k then delItem rest k else (k1, v1) :: delItem rest k

theorem lookupKey_setItem {K V : Type} [DecidableEq K]
    (l : List (K × V)) (k : K) (v : V) (c : K) :
    lookupKey (setItem l k v) c = if c = k then some v else lookupKey l c := by
  induction l with
  | nil =>
    by_cases hck : c = k
    · subst hck; simp [setItem, lookupKey]
    · have hkc : ¬ (k = c) := fun h => hck h.symm
      simp [setItem, lookupKey, hck, hkc]
  | cons hd tl ih =>
    obtain ⟨k1, v1⟩ := hd
    by_cases h1 : k1 = k
    · subst h1
      by_cases hck : c = k1
      · subst hck; simp [setItem, lookupKey]
      · have hkc : ¬ (k1 = c) := fun h => hck h.symm
        simp [setItem, lookupKey, hck, hkc]
    · by_cases hk1c : k1 = c
      · subst hk1c
        simp [setItem, lookupKey, h1]
      · simp [setItem, lookupKey, h1, hk1c, ih]

theorem lookupKey_delItem {K V : Type} [DecidableEq K]
    (l : List (K × V)) (k : K) (c : K) :
    lookupKey (delItem l k) c = if c = k then none else lookupKey l c := by
  induction l with
  | nil => simp [delItem, lookupKey]
  | cons hd tl ih =>
    obtain ⟨k1, v1⟩ := hd
    by_cases h1 : k1 = k
    · subst h1
      by_cases hck : c = k1
      · subst hck
        simp [delItem, lookupKey, ih]
      · have hk1c : ¬ (k1 = c) := fun h => hck h.symm
        simp [delItem, lookupKey, ih, hck, hk1c]
    · by_cases hk1c : k1 = c
      · subst hk1c
        simp [delItem, lookupKey, h1]
      · simp [delItem, lookupKey, h1, hk1c, ih]

theorem delItem_delItem {K V : Type} [DecidableEq K] (l : List (K × V)) (k : K) :
    delItem (delItem l k) k = delItem l k := by
  induction l with
  | nil => simp [delItem]
  | cons hd tl ih =>
    obtain ⟨k1, v1⟩ := hd
    by_cases h1 : k1 = k <;> simp [delItem, h1, ih]

theorem delItem_eq_of_not_contains {K V : Type} [DecidableEq K]
    (l : List (K × V)) (k : K) (h : containsKey l k = false) :
    delItem l k = l := by
  induction l with
  | nil => simp [delItem]
  | cons hd tl ih =>
    obtain ⟨k1, v1⟩ := hd
    by_cases h1 : k1 = k
    · exfalso
      simp [containsKey, lookupKey, h1] at h
    · simp [containsKey, lookupKey, h1] at h
      have htl : containsKey tl k = false := by simp [containsKey, h]
      simp [delItem, h1, ih htl]

theorem mem_delItem {K V : Type} [DecidableEq K]
    (l : List (K × V)) (k : K) (p : K × V) (hp : p ∈ delItem l k) :
    p ∈ l ∧ p.1 ≠ k := by
  induction l with
  | nil => simp [delItem] at hp
  | cons hd tl ih =>
    obtain ⟨k1, v1⟩ := hd
    by_cases h1 : k1 = k
    · simp [delItem, h1] at hp
      exact ⟨List.mem_cons_of_mem _ (ih hp).1, (ih hp).2⟩
    · simp [delItem, h1] at hp
      rcases hp with hp | hp
      · subst hp; exact ⟨List.mem_cons_self _ _, h1⟩
      · exact ⟨List.mem_cons_of_mem _ (ih hp).1, (ih hp).2⟩

theorem mem_setItem {K V : Type} [DecidableEq K]
    (l : List (K × V)) (k : K) (v : V) (p : K × V) (hp : p ∈ setItem l k v) :
    p = (k, v) ∨ p ∈ l := by
  induction l with
  | nil => simp [setItem] at hp; simp [hp]
  | cons hd tl ih =>
    obtain ⟨k1, v1⟩ := hd
    by_cases h1 : k1 = k
    · simp [setItem, h1] at hp
      rcases hp with hp | hp
      · left; simp [hp]
      · right; exact List.mem_cons_of_mem _ hp
    · simp [setItem, h1] at hp
      rcases hp with hp | hp
      · right; simp [hp]
      · rcases ih hp with h | h
        · left; exact h
        · right; exact List.mem_cons_of_mem _ h

/-! ### Transport handles and the ConnectionManager registry -/

/-- A live transport handle (`WebSocket`): an identity for tracking which
handle a write went to, and whether the underlying transport is closed. -/
structure WebSocketConn where
  wsId : Nat
  closed : Bool
deriving DecidableEq, Repr

/-- The registry state of `ConnectionManager`: `active_connections` maps a
connection id to its transport handle, `user_connections` maps a user id to
its current connection id. -/
structure ConnectionManager where
  active_connections : List (Nat × WebSocketConn)
  user_connections : List (String × Nat)
deriving DecidableEq, Repr

namespace ConnectionManager

/-- The registry created by `ConnectionManager.__init__`: both maps empty. -/
def init : ConnectionManager := ⟨[], []⟩

/-- `ConnectionManager.connect(websocket, user_id)`.  The fresh
`connection_id` produced by `uuid.uuid4()` is passed in by the caller
(randomness is external to the registry).  Inserts the id into both maps
and returns it alongside the new state. -/
def connect (m : ConnectionManager) (websocket : WebSocketConn)
    (user_id : String) (connection_id : Nat) : ConnectionManager × Nat :=
  ({ active_connections := setItem m.active_connections connection_id websocket,
     user_connections := setItem m.user_connections user_id connection_id },
   connection_id)

/-- `ConnectionManager.disconnect(connection_id, user_id)`: delete
`connection_id` from `active_connections` if present, and delete `user_id`
from `user_connections` if present. -/
def disconnect (m : ConnectionManager) (connection_id : Nat)
    (user_id : String) : ConnectionManager :=
  let m1 :=
    if containsKey m.active_connections connection_id then
      { m with active_connections := delItem m.active_connections connection_id }
    else m
  if containsKey m1.user_connections user_id then
    { m1 with user_connections := delItem m1.user_connections user_id }
  else m1

end ConnectionManager

/-- `websocket.send_text(message)`: succeeds on an open transport,
returning the performed write `(handle identity, payload)`; raises on a
closed transport. -/
def sendText (ws : WebSocketConn) (message : String) :
    Except String (Nat × String) :=
  if ws.closed then Except.error "ConnectionClosedError"
  else Except.ok (ws.wsId, message)

namespace ConnectionManager

/-- `ConnectionManager.send_personal_message(message, user_id)`: look up
the user's connection id, then the transport handle; if either lookup
misses, fall through without writing.  Returns the (unchanged) registry
state and the list of performed writes, or the propagated write error. -/
def send_personal_message (m : ConnectionManager) (message : String)
    (user_id : String) :
    Except String (ConnectionManager × List (Nat × String)) :=
  match lookupKey m.user_connections user_id with
  | some connection_id =>
    match lookupKey m.active_connections connection_id with
    | some websocket =>
      match sendText websocket message with
      | Except.ok w => Except.ok (m, [w])
      | Except.error e => Except.error e
    | none => Except.ok (m, [])
  | none => Except.ok (m, [])

/-- The loop body of `ConnectionManager.broadcast`: write `message` to each
handle in iteration (insertion) order.  Returns the writes performed and,
if some write raised, the propagated error; writes after the first failure
are not attempted. -/
def broadcastList (message : String) :
    List (Nat × WebSocketConn) → List (Nat × String) × Option String
  | [] => ([], none)
  | (_, ws) :: rest =>
    match sendText ws message with
    | Except.error e => ([], some e)
    | Except.ok w =>
      let r := broadcastList message rest
      (w :: r.1, r.2)

/-- `ConnectionManager.broadcast(message)`: iterate over
`active_connections.values()` writing `message` to each. -/
def broadcast (m : ConnectionManager) (message : String) :
    List (Nat × String) × Option String :=
  broadcastList message m.active_connections

end ConnectionManager

/-! ### The websocket receive loop of `websocket_endpoint` -/

/-- A JSON value, as produced by `json.loads`. -/
inductive JValue where
  | jnull
  | jbool (b : Bool)
  | jnum (n : Int)
  | jstr (s : String)
  | jobj (fields : List (String × JValue))

/-- Python equality of a JSON value against a string literal
(`message_data["type"] == "ping"`): true exactly when the value is that
string. -/
def jeqStr : JValue → String → Bool
  | JValue.jstr s, t => s = t
  | _, _ => false

/-- `message_data["type"]`: on a JSON object, the value at key `"type"`
(`KeyError` if absent); on any non-object, a `TypeError`.  Either error is
uncaught in the receive loop. -/
def getType : JValue → Except String JValue
  | JValue.jobj fields =>
    match lookupKey fields "type" with
    | some v => Except.ok v
    | none => Except.error "KeyError"
  | _ => Except.error "TypeError"

/-- The constant reply `json.dumps({"type": "pong"})`. -/
def pongText : String := "\x7b\"type\": \"pong\"\x7d"

/-- One inbound event on a connection: either `receive_text` returns a
frame (with the outcome of `json.loads` on it — `none` when decoding
raises), or it raises `WebSocketDisconnect`. -/
inductive Inbound where
  | text (raw : String) (parsed : Option JValue)
  | disconnected

/-- The outcome of one iteration of the receive loop:
`next replies broadcasts persisted m` — the loop continues, having sent
`replies` on the connection's own transport, delivered `broadcasts` via
the manager, persisted `persisted` messages (the loop never persists), and
left the registry at `m`; `exitExn delivered m` — an uncaught error
propagates out of the handler (after `delivered` broadcast writes), so
`manager.disconnect` is NOT run; `exitDisc m` — `WebSocketDisconnect` was
caught and the disconnect path ran. -/
inductive StepResult where
  | next (replies : List (Nat × String)) (broadcasts : List (Nat × String))
      (persisted : List String) (m : ConnectionManager)
  | exitExn (delivered : List (Nat × String)) (m : ConnectionManager)
  | exitDisc (m : ConnectionManager)
deriving DecidableEq

/-- One iteration of the `while True` receive loop of
`websocket_endpoint`, for the connection with id `connection_id`, path
user `user_id` and transport `websocket`, starting from registry state
`m`. -/
def wsStep (m : ConnectionManager) (connection_id : Nat) (user_id : String)
    (websocket : WebSocketConn) (ev : Inbound) : StepResult :=
  match ev with
  | Inbound.disconnected =>
    StepResult.exitDisc (m.disconnect connection_id user_id)
  | Inbound.text raw parsed =>
    match parsed with
    | none => StepResult.exitExn [] m
    | some j =>
      match getType j with
      | Except.error _ => StepResult.exitExn [] m
      | Except.ok t =>
        if jeqStr t "ping" then
          match sendText websocket pongText with
          | Except.ok w => StepResult.next [w] [] [] m
          | Except.error _ => StepResult.exitExn [] m
        else if jeqStr t "message" then
          match m.broadcast raw with
          | (ws, none) => StepResult.next [] ws [] m
          | (ws, some _) => StepResult.exitExn ws m
        else
          StepResult.next [] [] [] m

/-! ### Traces of registry operations

For the registry invariant we run sequences of `connect`/`disconnect`
calls from the initial (empty) registry.  Alongside the registry we keep a
ghost record `generated` of every `(user_id, connection_id)` pair a
`connect` call has produced, so that freshness of generated ids
(`uuid.uuid4()` collisions being ruled out) and the provenance of
`disconnect` arguments can be stated. -/

/-- A registry operation: a `connect` call (with the id generated for it
and the accepted transport) or a `disconnect` call. -/
inductive Op where
  | connect (user_id : String) (connection_id : Nat) (websocket : WebSocketConn)
  | disconnect (connection_id : Nat) (user_id : String)
deriving DecidableEq, Repr

/-- Registry state plus the ghost record of generated ids. -/
structure TraceState where
  cm : ConnectionManager
  generated : List (String × Nat)
deriving DecidableEq, Repr

/-- The initial trace state: empty registry, nothing generated yet. -/
def TraceState.start : TraceState := ⟨ConnectionManager.init, []⟩

/-- Apply one operation to the registry, recording generated ids. -/
def applyOp (s : TraceState) : Op → TraceState
  | Op.connect uid cid ws => ⟨(s.cm.connect ws uid cid).1, s.generated ++ [(uid, cid)]⟩
  | Op.disconnect cid uid => ⟨s.cm.disconnect cid uid, s.generated⟩

/-- Run a sequence of operations. -/
def runOps : TraceState → List Op → TraceState
  | s, [] => s
  | s, op :: rest => runOps (applyOp s op) rest

/-- The freshness condition alone: every `connect` generates a connection
id distinct from all previously generated ones (as `uuid.uuid4()` does);
`disconnect` arguments are unconstrained. -/
def freshRun : TraceState → List Op → Bool
  | _, [] => true
  | s, Op.connect uid cid ws :: rest =>
    !(s.generated.any fun p => decide (p.2 = cid)) &&
      freshRun (applyOp s (Op.connect uid cid ws)) rest
  | s, Op.disconnect cid uid :: rest =>
    freshRun (applyOp s (Op.disconnect cid uid)) rest

/-- Freshness plus pairing: every `disconnect (cid, uid)` uses a pair that
some earlier `connect` produced — exactly how `websocket_endpoint` calls
it, with the `connection_id` returned by its own `connect` for `user_id`. -/
def pairedRun : TraceState → List Op → Bool
  | _, [] => true
  | s, Op.connect uid cid ws :: rest =>
    !(s.generated.any fun p => decide (p.2 = cid)) &&
      pairedRun (applyOp s (Op.connect uid cid ws)) rest
  | s, Op.disconnect cid uid :: rest =>
    (s.generated.any fun p => decide (p = (uid, cid))) &&
      pairedRun (applyOp s (Op.disconnect cid uid)) rest

/-- No dangling user mapping: every connection id stored as a value of
`user_connections` is a key of `active_connections`. -/
def noDangling (m : ConnectionManager) : Bool :=
  m.user_connections.all fun p => containsKey m.active_connections p.2

/-! ### Helper lemmas -/

theorem containsKey_setItem_self {K V : Type} [DecidableEq K]
    (l : List (K × V)) (k : K) (v : V) :
    containsKey (setItem l k v) k = true := by
  simp [containsKey, lookupKey_setItem]

theorem containsKey_setItem_of {K V : Type} [DecidableEq K]
    (l : List (K × V)) (k c : K) (v : V) (h : containsKey l c = true) :
    containsKey (setItem l k v) c = true := by
  by_cases hck : c = k
  · simp [containsKey, lookupKey_setItem, hck]
  · simp [containsKey, lookupKey_setItem, hck]
    simpa [containsKey] using h

theorem containsKey_delItem_of_ne {K V : Type} [DecidableEq K]
    (l : List (K × V)) (k c : K) (hck : c ≠ k) :
    containsKey (delItem l k) c = containsKey l c := by
  simp [containsKey, lookupKey_delItem, hck]

theorem disconnect_eq (m : ConnectionManager) (cid : Nat) (uid : String) :
    m.disconnect cid uid =
      ⟨delItem m.active_connections cid, delItem m.user_connections uid⟩ := by
  unfold ConnectionManager.disconnect
  by_cases ha : containsKey m.active_connections cid = true
  · by_cases hu : containsKey m.user_connections uid = true
    · simp [ha, hu]
    · simp [ha, hu, delItem_eq_of_not_contains _ _ (by simpa using hu)]
  · by_cases hu : containsKey m.user_connections uid = true
    · simp [ha, hu, delItem_eq_of_not_contains _ _ (by simpa using ha)]
    · simp [ha, hu, delItem_eq_of_not_contains _ _ (by simpa using ha),
        delItem_eq_of_not_contains _ _ (by simpa using hu)]

theorem takeWhile_eq_self_of_all {α : Type} (p : α → Bool) (l : List α)
    (h : l.all p = true) : l.takeWhile p = l := by
  induction l with
  | nil => simp
  | cons hd tl ih =>
    simp only [List.all_cons, Bool.and_eq_true] at h
    simp [List.takeWhile_cons, h.1, ih h.2]

theorem broadcastList_spec (message : String) (l : List (Nat × WebSocketConn)) :
    ConnectionManager.broadcastList message l =
      ((l.takeWhile fun p => !p.2.closed).map fun p => (p.2.wsId, message),
       if l.all (fun p => !p.2.closed) then none
       else some "ConnectionClosedError") := by
  induction l with
  | nil => simp [ConnectionManager.broadcastList]
  | cons hd tl ih =>
    obtain ⟨c, ws⟩ := hd
    rcases Bool.eq_false_or_eq_true ws.closed with hc | hc
    all_goals simp [ConnectionManager.broadcastList, sendText, hc,
      List.takeWhile_cons, List.all_cons, ih]
    rw [hc]
    simp only [Bool.not_false, Bool.true_and]

theorem broadcastList_all_open (message : String)
    (l : List (Nat × WebSocketConn)) (h : l.all (fun p => !p.2.closed) = true) :
    ConnectionManager.broadcastList message l =
      (l.map fun p => (p.2.wsId, message), none) := by
  rw [broadcastList_spec]
  simp [takeWhile_eq_self_of_all _ _ h, h]

/-- Inductive invariant carried along a trace: every entry of the user map
was produced by a recorded `connect` call and points at a live connection,
and a generated connection id determines the user it was generated for. -/
def InvGen (s : TraceState) : Prop :=
  (∀ p ∈ s.cm.user_connections, p ∈ s.generated ∧
      containsKey s.cm.active_connections p.2 = true) ∧
  ∀ p ∈ s.generated, ∀ q ∈ s.generated, p.2 = q.2 → p.1 = q.1

theorem invGen_start : InvGen TraceState.start := by
  constructor <;> simp [TraceState.start, ConnectionManager.init]

theorem invGen_runOps : ∀ (ops : List Op) (s : TraceState),
    InvGen s → pairedRun s ops = true → InvGen (runOps s ops) := by
  intro ops
  induction ops with
  | nil => intro s hInv _; exact hInv
  | cons op rest ih =>
    intro s hInv hrun
    cases op with
    | connect uid cid ws =>
      simp only [pairedRun, Bool.and_eq_true] at hrun
      obtain ⟨hfresh0, hrest⟩ := hrun
      have hfresh : ∀ q ∈ s.generated, q.2 ≠ cid := by
        intro q hq hq2
        simp only [Bool.not_eq_true', List.any_eq_false] at hfresh0
        have hcontra := hfresh0 q hq
        simp [hq2] at hcontra
      simp only [runOps]
      apply ih
      · constructor
        · intro p hp
          simp only [applyOp, ConnectionManager.connect] at hp ⊢
          rcases mem_setItem _ _ _ _ hp with hpe | hpm
          · subst hpe
            exact ⟨by simp, containsKey_setItem_self _ _ _⟩
          · obtain ⟨hgen, hcon⟩ := hInv.1 p hpm
            exact ⟨by simp [hgen], containsKey_setItem_of _ _ _ _ hcon⟩
        · intro p hp q hq hpq
          simp only [applyOp, List.mem_append, List.mem_singleton] at hp hq
          rcases hp with hp | hp
          · rcases hq with hq | hq
            · exact hInv.2 p hp q hq hpq
            · exfalso
              exact hfresh p hp (by rw [hpq, hq])
          · rcases hq with hq | hq
            · exfalso
              exact hfresh q hq (by rw [← hpq, hp])
            · rw [hp, hq]
      · exact hrest
    | disconnect cid uid =>
      simp only [pairedRun, Bool.and_eq_true] at hrun
      obtain ⟨hpair0, hrest⟩ := hrun
      simp only [List.any_eq_true, decide_eq_true_eq] at hpair0
      obtain ⟨pr, hprmem, hpre⟩ := hpair0
      subst hpre
      simp only [runOps]
      apply ih
      · constructor
        · intro p hp
          simp only [applyOp, disconnect_eq] at hp ⊢
          obtain ⟨hpm, hpne⟩ := mem_delItem _ _ _ hp
          obtain ⟨hgen, hcon⟩ := hInv.1 p hpm
          refine ⟨hgen, ?_⟩
          have hne : p.2 ≠ cid := by
            intro heq
            exact hpne (hInv.2 p hgen (uid, cid) hprmem heq)
          rw [containsKey_delItem_of_ne _ _ _ hne]
          exact hcon
        · intro p hp q hq hpq
          simp only [applyOp] at hp hq
          exact hInv.2 p hp q hq hpq
      · exact hrest

theorem noDangling_of_invGen (s : TraceState) (h : InvGen s) :
    noDangling s.cm = true := by
  simp only [noDangling, List.all_eq_true]
  intro p hp
  exact (h.1 p hp).2

/-! ### Claim theorems -/

/-- Claim C1, counterexample: after user `A` connects twice (ids 1 then 2),
the registry maps `A` to 2; yet `disconnect 1 "A"` (the stale id) removes
`A`'s mapping — the source deletes the user entry unconditionally, with no
guard that it still points at `connection_id`. -/
theorem C1_counterexample :
    lookupKey (((ConnectionManager.init.connect ⟨1, false⟩ "A" 1).1.connect
        ⟨2, false⟩ "A" 2).1.user_connections) "A" = some 2 ∧
    lookupKey ((((ConnectionManager.init.connect ⟨1, false⟩ "A" 1).1.connect
        ⟨2, false⟩ "A" 2).1.disconnect 1 "A").user_connections) "A" = none :=
  ⟨rfl, rfl⟩

/-- Claim C1 (amended): `disconnect(connection_id, user_id)` removes
`connection_id` from the connection map and removes `user_id`'s entry
from the user map unconditionally whenever present — even when that entry
points at a newer connection id created by a subsequent reconnect. -/
theorem C1_disconnect_amended (m : ConnectionManager) (cid : Nat) (uid : String) :
    (∀ c, lookupKey (m.disconnect cid uid).active_connections c =
        if c = cid then none else lookupKey m.active_connections c) ∧
    ∀ u, lookupKey (m.disconnect cid uid).user_connections u =
        if u = uid then none else lookupKey m.user_connections u := by
  rw [disconnect_eq]
  exact ⟨fun c => lookupKey_delItem _ _ _, fun u => lookupKey_delItem _ _ _⟩

/-- Claim C2, counterexample: with two registered connections, the first
one on a closed transport, `broadcast` raises (error propagates out) and
delivers the payload to nobody — the write failure aborts delivery to the
remaining connection and the failing connection is not evicted.  The
source has no per-write error handling. -/
theorem C2_counterexample :
    ConnectionManager.broadcast
        ⟨[(1, ⟨1, true⟩), (2, ⟨2, false⟩)], [("u1", 1), ("u2", 2)]⟩ "hi" =
      ([], some "ConnectionClosedError") :=
  rfl

/-- Claim C2 (amended): `broadcast` writes the exact payload to the
registered connections in insertion order up to the first connection whose
transport write fails; that failure raises out of the broadcast call,
aborting delivery to every remaining connection, and the failing
connection is not marked or removed. -/
theorem C2_broadcast_amended (m : ConnectionManager) (message : String) :
    m.broadcast message =
      ((m.active_connections.takeWhile fun p => !p.2.closed).map
          fun p => (p.2.wsId, message),
       if m.active_connections.all (fun p => !p.2.closed) then none
       else some "ConnectionClosedError") :=
  broadcastList_spec message m.active_connections

/-- Claim C3: when the user has no entry in the user map, or the mapped
connection id is absent from the connection map,
`send_personal_message` returns not-delivered (no write performed) without
raising, and the registry state is unchanged. -/
theorem C3_send_personal_message_miss (m : ConnectionManager)
    (message user_id : String)
    (h : lookupKey m.user_connections user_id = none ∨
      ∃ cid, lookupKey m.user_connections user_id = some cid ∧
        lookupKey m.active_connections cid = none) :
    m.send_personal_message message user_id = Except.ok (m, []) := by
  rcases h with h | ⟨cid, h1, h2⟩
  · simp [ConnectionManager.send_personal_message, h]
  · simp [ConnectionManager.send_personal_message, h1, h2]

/-- Claim C3 witness: a user mapped to a connection id that is absent from
the connection map gets a silent not-delivered result. -/
theorem C3_witness :
    (lookupKey ((⟨[], [("alice", 7)]⟩ : ConnectionManager).user_connections)
        "alice" = none ∨
      ∃ cid, lookupKey ((⟨[], [("alice", 7)]⟩ :
          ConnectionManager).user_connections) "alice" = some cid ∧
        lookupKey ((⟨[], [("alice", 7)]⟩ :
          ConnectionManager).active_connections) cid = none) ∧
    (⟨[], [("alice", 7)]⟩ : ConnectionManager).send_personal_message
        "hello" "alice" = Except.ok (⟨[], [("alice", 7)]⟩, []) :=
  ⟨Or.inr ⟨7, rfl, rfl⟩,
   C3_send_personal_message_miss _ _ _ (Or.inr ⟨7, rfl, rfl⟩)⟩

/-- Claim C4, counterexample: a frame that fails to decode makes the
receive loop exit with the error propagating (`json.loads` raises and only
`WebSocketDisconnect` is caught), so `manager.disconnect` does NOT run and
the connection's registry entries are NOT evicted — they are both still
present afterwards. -/
theorem C4_counterexample :
    wsStep (ConnectionManager.init.connect ⟨5, false⟩ "A" 1).1 1 "A" ⟨5, false⟩
        (Inbound.text "not json" none) =
      StepResult.exitExn [] (ConnectionManager.init.connect ⟨5, false⟩ "A" 1).1 ∧
    lookupKey ((ConnectionManager.init.connect
        ⟨5, false⟩ "A" 1).1.active_connections) 1 = some ⟨5, false⟩ ∧
    lookupKey ((ConnectionManager.init.connect
        ⟨5, false⟩ "A" 1).1.user_connections) "A" = some 1 :=
  ⟨rfl, rfl, rfl⟩

/-- Claim C4 (amended): on a decode failure (malformed JSON, or a payload
on which the `"type"` subscript raises) the receive loop exits with the
exception propagating and the registry unchanged — the disconnect path
does not run, so the connection's entries are not evicted; eviction
happens only when the transport raises `WebSocketDisconnect`.  Other
connections are unaffected (the registry is untouched). -/
theorem C4_decode_failure_amended (m : ConnectionManager) (cid : Nat)
    (uid : String) (ws : WebSocketConn) (raw : String) :
    wsStep m cid uid ws (Inbound.text raw none) = StepResult.exitExn [] m ∧
    (∀ j e, getType j = Except.error e →
      wsStep m cid uid ws (Inbound.text raw (some j)) =
        StepResult.exitExn [] m) ∧
    wsStep m cid uid ws Inbound.disconnected =
      StepResult.exitDisc (m.disconnect cid uid) := by
  refine ⟨rfl, ?_, rfl⟩
  intro j e hj
  simp [wsStep, hj]

/-- Claim C4 witness: a well-formed JSON frame that is not an object makes
the `"type"` subscript raise, and the loop exits with the registry
unchanged. -/
theorem C4_witness :
    getType (JValue.jnum 3) = Except.error "TypeError" ∧
    wsStep ConnectionManager.init 1 "A" ⟨5, false⟩
        (Inbound.text "3" (some (JValue.jnum 3))) =
      StepResult.exitExn [] ConnectionManager.init :=
  ⟨rfl, (C4_decode_failure_amended ConnectionManager.init 1 "A" ⟨5, false⟩
      "3").2.1 (JValue.jnum 3) "TypeError" rfl⟩

/-- Claim C5, counterexample: on an inbound `"message"` frame the handler
persists nothing (the persisted list of the step outcome is empty — there
is no call to any messaging collaborator) and broadcasts the raw inbound
bytes, not a persisted canonical representation. -/
theorem C5_counterexample :
    wsStep (ConnectionManager.init.connect ⟨5, false⟩ "A" 1).1 1 "A" ⟨5, false⟩
        (Inbound.text "rawframe"
          (some (JValue.jobj [("type", JValue.jstr "message")]))) =
      StepResult.next [] [(5, "rawframe")] []
        (ConnectionManager.init.connect ⟨5, false⟩ "A" 1).1 :=
  rfl

/-- Claim C5 (amended): on an inbound frame tagged `"message"`, the
handler performs no persistence and re-broadcasts the raw inbound frame
verbatim to every registered connection (here with all transports open, so
the broadcast completes). -/
theorem C5_message_amended (m : ConnectionManager) (cid : Nat) (uid : String)
    (ws : WebSocketConn) (raw : String) (j : JValue)
    (hj : getType j = Except.ok (JValue.jstr "message"))
    (hopen : m.active_connections.all (fun p => !p.2.closed) = true) :
    wsStep m cid uid ws (Inbound.text raw (some j)) =
      StepResult.next [] (m.active_connections.map fun p => (p.2.wsId, raw))
        [] m := by
  have hb := broadcastList_all_open raw m.active_connections hopen
  have hping : jeqStr (JValue.jstr "message") "ping" = false := rfl
  have hmsg : jeqStr (JValue.jstr "message") "message" = true := rfl
  simp [wsStep, hj, hping, hmsg, ConnectionManager.broadcast, hb]

/-- Claim C5 witness: a concrete `"message"` frame on a registry with one
open connection is broadcast verbatim with nothing persisted. -/
theorem C5_witness :
    getType (JValue.jobj [("type", JValue.jstr "message")]) =
        Except.ok (JValue.jstr "message") ∧
    ((ConnectionManager.init.connect ⟨5, false⟩ "A" 1).1.active_connections.all
        fun p => !p.2.closed) = true ∧
    wsStep (ConnectionManager.init.connect ⟨5, false⟩ "A" 1).1 1 "A" ⟨5, false⟩
        (Inbound.text "hello"
          (some (JValue.jobj [("type", JValue.jstr "message")]))) =
      StepResult.next []
        ((ConnectionManager.init.connect ⟨5, false⟩ "A" 1).1.active_connections.map
          fun p => (p.2.wsId, "hello")) []
        (ConnectionManager.init.connect ⟨5, false⟩ "A" 1).1 :=
  ⟨rfl, rfl, C5_message_amended _ _ _ _ _ _ rfl rfl⟩

/-- Claim C6: `connect` with a connection id fresh for the registry (as
`uuid.uuid4()` supplies) returns that id, inserts the transport into the
connection map at the new id, points `user_id` at the new id (overwriting
any prior mapping, so the user's lookup yields exactly the new id), and
leaves every other entry of both maps unchanged — in particular a
superseded connection's entry survives in the connection map and its
transport is not closed. -/
theorem C6_connect (m : ConnectionManager) (ws : WebSocketConn)
    (uid : String) (cid : Nat)
    (_hfresh : containsKey m.active_connections cid = false) :
    (m.connect ws uid cid).2 = cid ∧
    lookupKey (m.connect ws uid cid).1.active_connections cid = some ws ∧
    lookupKey (m.connect ws uid cid).1.user_connections uid = some cid ∧
    (∀ c, c ≠ cid →
      lookupKey (m.connect ws uid cid).1.active_connections c =
        lookupKey m.active_connections c) ∧
    (∀ u, u ≠ uid →
      lookupKey (m.connect ws uid cid).1.user_connections u =
        lookupKey m.user_connections u) := by
  refine ⟨rfl, ?_, ?_, fun c hc => ?_, fun u hu => ?_⟩
  · simp [ConnectionManager.connect, lookupKey_setItem]
  · simp [ConnectionManager.connect, lookupKey_setItem]
  · simp [ConnectionManager.connect, lookupKey_setItem, hc]
  · simp [ConnectionManager.connect, lookupKey_setItem, hu]

/-- Claim C6 witness: user `A` reconnects with fresh id 2; the registry
maps `A` to 2 and the superseded connection 1 is still in the connection
map with its transport untouched. -/
theorem C6_witness :
    containsKey ((ConnectionManager.init.connect
        ⟨5, false⟩ "A" 1).1.active_connections) 2 = false ∧
    lookupKey (((ConnectionManager.init.connect ⟨5, false⟩ "A" 1).1.connect
        ⟨6, false⟩ "A" 2).1.user_connections) "A" = some 2 ∧
    lookupKey (((ConnectionManager.init.connect ⟨5, false⟩ "A" 1).1.connect
        ⟨6, false⟩ "A" 2).1.active_connections) 1 = some ⟨5, false⟩ :=
  ⟨rfl,
   (C6_connect (ConnectionManager.init.connect ⟨5, false⟩ "A" 1).1
     ⟨6, false⟩ "A" 2 rfl).2.2.1,
   by
     have h := (C6_connect (ConnectionManager.init.connect ⟨5, false⟩ "A" 1).1
       ⟨6, false⟩ "A" 2 rfl).2.2.2.1 1 (by decide)
     rw [h]
     rfl⟩

/-- Claim C7: on a live (open) connection, the frame with `"type"` equal
to `"ping"` yields exactly the `pong` reply back on that same connection,
with no broadcast, nothing persisted, and the registry unchanged. -/
theorem C7_ping (m : ConnectionManager) (cid : Nat) (uid : String)
    (ws : WebSocketConn) (raw : String) (hopen : ws.closed = false) :
    wsStep m cid uid ws
        (Inbound.text raw (some (JValue.jobj [("type", JValue.jstr "ping")]))) =
      StepResult.next [(ws.wsId, pongText)] [] [] m := by
  have hping : jeqStr (JValue.jstr "ping") "ping" = true := rfl
  simp [wsStep, getType, lookupKey, hping, sendText, hopen]

/-- Claim C7 witness: a concrete ping round trip on an open connection. -/
theorem C7_witness :
    (⟨5, false⟩ : WebSocketConn).closed = false ∧
    wsStep ConnectionManager.init 1 "A" ⟨5, false⟩
        (Inbound.text "pingraw"
          (some (JValue.jobj [("type", JValue.jstr "ping")]))) =
      StepResult.next [(5, pongText)] [] [] ConnectionManager.init :=
  ⟨rfl, C7_ping _ _ _ _ _ rfl⟩

/-- Claim C8: `disconnect` is idempotent — calling it twice with the same
arguments leaves the registry exactly as one call does (the second call
finds neither key present and is a no-op; the membership guards mean it
never raises). -/
theorem C8_disconnect_idempotent (m : ConnectionManager) (cid : Nat)
    (uid : String) :
    (m.disconnect cid uid).disconnect cid uid = m.disconnect cid uid := by
  simp [disconnect_eq, delItem_delItem]

/-- Claim C9, counterexample: with fresh connection ids only (no pairing
discipline on `disconnect` arguments), `connect "A"` (id 1) followed by
`disconnect 1 "B"` deletes connection 1 from the connection map while
leaving `A ↦ 1` in the user map — a dangling user mapping. -/
theorem C9_counterexample :
    freshRun TraceState.start
        [Op.connect "A" 1 ⟨5, false⟩, Op.disconnect 1 "B"] = true ∧
    noDangling (runOps TraceState.start
        [Op.connect "A" 1 ⟨5, false⟩, Op.disconnect 1 "B"]).cm = false :=
  ⟨rfl, rfl⟩

/-- Claim C9 (amended): starting from the empty registry, for every
sequence of `connect`/`disconnect` calls in which connect ids are fresh
and every `disconnect (connection_id, user_id)` uses a pair produced by an
earlier `connect` for that same user — exactly how `websocket_endpoint`
calls it — every connection id stored in the user map is a key of the
connection map. -/
theorem C9_no_dangling_amended (ops : List Op)
    (h : pairedRun TraceState.start ops = true) :
    noDangling (runOps TraceState.start ops).cm = true :=
  noDangling_of_invGen _ (invGen_runOps ops TraceState.start invGen_start h)

/-- Claim C9 witness: a double-connect and both paired disconnects leave
no dangling mapping. -/
theorem C9_witness :
    pairedRun TraceState.start
        [Op.connect "A" 1 ⟨5, false⟩, Op.connect "A" 2 ⟨6, false⟩,
         Op.disconnect 1 "A", Op.disconnect 2 "A"] = true ∧
    noDangling (runOps TraceState.start
        [Op.connect "A" 1 ⟨5, false⟩, Op.connect "A" 2 ⟨6, false⟩,
         Op.disconnect 1 "A", Op.disconnect 2 "A"]).cm = true :=
  ⟨rfl, C9_no_dangling_amended _ rfl⟩

/-- Claim C10: a well-formed JSON object frame whose `"type"` value is
neither `"ping"` nor `"message"` is silently ignored — no reply, no
broadcast, nothing persisted, registry unchanged, and the loop continues
to the next frame. -/
theorem C10_unknown_type (m : ConnectionManager) (cid : Nat) (uid : String)
    (ws : WebSocketConn) (raw : String) (fields : List (String × JValue))
    (t : JValue) (ht : lookupKey fields "type" = some t)
    (hping : jeqStr t "ping" = false) (hmsg : jeqStr t "message" = false) :
    wsStep m cid uid ws (Inbound.text raw (some (JValue.jobj fields))) =
      StepResult.next [] [] [] m := by
  simp [wsStep, getType, ht, hping, hmsg]

/-- Claim C10 witness: a `"typing"`-tagged frame is ignored. -/
theorem C10_witness :
    lookupKey [("type", JValue.jstr "typing")] "type" =
        some (JValue.jstr "typing") ∧
    jeqStr (JValue.jstr "typing") "ping" = false ∧
    jeqStr (JValue.jstr "typing") "message" = false ∧
    wsStep ConnectionManager.init 1 "A" ⟨5, false⟩
        (Inbound.text "x" (some (JValue.jobj [("type", JValue.jstr "typing")]))) =
      StepResult.next [] [] [] ConnectionManager.init :=
  ⟨rfl, rfl, rfl, C10_unknown_type _ _ _ _ _ _ _ rfl rfl rfl⟩

end ConvoTalk
